import Mathlib

set_option maxHeartbeats 1000000
set_option linter.unusedVariables false

/-!
Shallow embedding of the observability-stack example services
(travel-planner orchestrator, events agent, MCP server, weather agent,
canary script, dashboards init script) and proofs about the claims on
their behaviour.

Conventions used throughout:
* JSON objects whose fields the code reads as strings are modelled as
  association lists `List (String × String)`.
* Randomness (`random.random()`, `random.randint`, `random.choice`,
  `random.sample`) is modelled by explicit oracle parameters; theorems
  quantify over them.
* HTTP calls are modelled by passing the outcome of the call (exception
  raised, or status/text/body) as a parameter.
* Wall-clock sleeps and OpenTelemetry span/metric emission have no
  observable effect on the data the claims talk about and are not
  modelled.
* Python exceptions are modelled by `Except`-style sum types; an
  uncaught exception is an explicit error value.
-/

/-- Association-list model of a JSON object with string-valued fields
(the code under scrutiny only reads string-valued fields from these
objects). -/
abbrev Dict := List (String × String)

namespace Orch

/-- `SubAgentFault` pydantic model (orchestrator/main.py). -/
structure SubAgentFault where
  type : String
  delay_ms : Int := 0
  probability : ℚ := 1
  wrong_city : Option String := none
deriving DecidableEq

/-- `FaultConfig` pydantic model (orchestrator/main.py). -/
structure FaultConfig where
  orchestrator : Option String := none
  weather : Option SubAgentFault := none
  events : Option SubAgentFault := none
deriving DecidableEq

/-- `PlanRequest` pydantic model (orchestrator/main.py). -/
structure PlanRequest where
  destination : String
  fault : Option FaultConfig := none
deriving DecidableEq

/-- `PlanResponse` pydantic model (orchestrator/main.py); the `partial`
field is called `isPartial` here. -/
structure PlanResponse where
  destination : String
  weather : Option Dict := none
  events : List Dict := []
  recommendation : String
  isPartial : Bool := false
  errors : List (String × String) := []
deriving DecidableEq

/-- A Python exception escaping the handler, identified by class and
offending name. -/
inductive PyError where
  | nameError (missing : String)
deriving DecidableEq

/-- Result of a Python function: normal return or uncaught exception. -/
inductive PyOutcome (α : Type) where
  | ok (v : α)
  | raised (e : PyError)
deriving DecidableEq

/-- Outcome of one `client.post` call: the HTTP layer raised (timeout,
connection error, ...), or a response arrived with a status code, raw
text and parsed JSON body. -/
inductive CallOutcome (β : Type) where
  | exn (msg : String)
  | resp (status : Nat) (text : String) (body : β)

/-- The fields of the events-agent JSON body that `plan_trip` reads:
whether an "error" key is present (with its stringified value) and the
"events" list. -/
structure EventsBody where
  error : Option String := none
  events : List Dict := []

/-- One HTTP request issued by the orchestrator during a `/plan`
request: target agent and the client timeout (seconds) in force. -/
structure SentRequest where
  agent : String
  timeout : ℚ
deriving DecidableEq

/-- The Python condition `weather and "response" in weather` yields the
weather part exactly when this is `some` (an empty dict is falsy and
also has no "response" key), and `weather["response"]` is its value. -/
def weatherResponseField : Option Dict → Option String
  | some w => List.lookup "response" w
  | none => none

/-- The sentence parts assembled by `build_recommendation`
(orchestrator/main.py, lines 278-292), before the final join. -/
def buildRecommendationParts (destination : String) (weather : Option Dict)
    (events : List Dict) (isPartial : Bool) : List String :=
  let wpart : List String :=
    match weatherResponseField weather with
    | some r => [r]
    | none => if isPartial then ["Weather info temporarily unavailable."] else []
  let epart : List String :=
    if events.isEmpty then
      if isPartial then ["Events info temporarily unavailable."] else []
    else
      ["Check out " ++ (String.intercalate ", "
        ((events.take 2).map (fun e => (List.lookup "name" e).getD "")) ++ ".")]
  ("Great choice! " ++ (destination ++ " looks wonderful.")) :: (wpart ++ epart)

/-- Python `" ".join parts`. -/
def joinSpaceRest : List String → String
  | [] => ""
  | y :: ys => " " ++ (y ++ joinSpaceRest ys)

/-- Python `" ".join parts`. -/
def joinSpace : List String → String
  | [] => ""
  | x :: xs => x ++ joinSpaceRest xs

/-- `build_recommendation` (orchestrator/main.py, lines 278-292). -/
def build_recommendation (destination : String) (weather : Option Dict)
    (events : List Dict) (isPartial : Bool) : String :=
  joinSpace (buildRecommendationParts destination weather events isPartial)

/-- The timeout chosen at orchestrator/main.py lines 191-199: 0.001 s
when a fault with truthy `orchestrator` equal to "fan_out_timeout" is
present, 30.0 s otherwise. -/
def orchTimeout (fault : Option FaultConfig) : ℚ :=
  match fault with
  | some f =>
      match f.orchestrator with
      | some o => if o = "fan_out_timeout" then 1 / 1000 else 30
      | none => 30
  | none => 30

/-- The condition `fault and fault.orchestrator == "partial_failure"`
guarding the simulated partial failures. -/
def partialFailureConfigured (fault : Option FaultConfig) : Bool :=
  match fault with
  | some f => f.orchestrator == some "partial_failure"
  | none => false

/-- `plan_trip` (orchestrator/main.py, lines 137-275), as a function of
the request, the two `random.random() < 0.5` draws guarding the
simulated partial failures, and the outcomes of the two sub-agent
calls.  Returns the endpoint outcome together with the list of HTTP
requests issued.  Note: in the events-agent `except` handler the source
refers to the name `tool_span` (line 240), which is not defined in
`plan_trip`; evaluating it raises a `NameError` that escapes the
handler, which the model reproduces. -/
def plan_trip (request : PlanRequest) (coinW coinE : Bool)
    (weatherCall : CallOutcome Dict) (eventsCall : CallOutcome EventsBody) :
    PyOutcome PlanResponse × List SentRequest :=
  let fault := request.fault
  let timeout := orchTimeout fault
  let pf := partialFailureConfigured fault
  let wtrace : List SentRequest := if pf && coinW then [] else [⟨"weather", timeout⟩]
  let wres : Option Dict × List (String × String) :=
    if pf && coinW then
      (none, [("weather", "Simulated partial failure - skipping weather")])
    else
      match weatherCall with
      | .exn m => (none, [("weather", m)])
      | .resp status text body =>
          if status = 200 then (some body, []) else (none, [("weather", text)])
  let etrace : List SentRequest := if pf && coinE then [] else [⟨"events", timeout⟩]
  let outcome : PyOutcome PlanResponse :=
    if pf && coinE then
      .raised (.nameError "tool_span")
    else
      match eventsCall with
      | .exn _m => .raised (.nameError "tool_span")
      | .resp status text body =>
          let er : List Dict × List (String × String) :=
            if status = 200 then
              match body.error with
              | none => (body.events, [])
              | some e => ([], [("events", e)])
            else ([], [("events", text)])
          let errors := wres.2 ++ er.2
          let isPartial := !errors.isEmpty
          .ok { destination := request.destination, weather := wres.1,
                events := er.1,
                recommendation := build_recommendation request.destination wres.1 er.1 isPartial,
                isPartial := isPartial, errors := errors }
  (outcome, wtrace ++ etrace)

end Orch

namespace EventsAgent

/-- `FaultConfig` pydantic model (events-agent/main.py). -/
structure FaultConfig where
  type : String
  delay_ms : Nat := 0
  probability : ℚ := 1
  wrong_city : Option String := none
deriving DecidableEq

/-- `EventsRequest` pydantic model (events-agent/main.py). -/
structure EventsRequest where
  destination : String
  date : Option String := none
  fault : Option FaultConfig := none
deriving DecidableEq

/-- `Event` pydantic model (events-agent/main.py). -/
structure Event where
  name : String
  type : String
  venue : String
  date : String
deriving DecidableEq

/-- `EventsResponse` pydantic model (events-agent/main.py). -/
structure EventsResponse where
  destination : String
  events : List Event
  agent_id : String
deriving DecidableEq

/-- The error dict `{"type": ..., "message": ...}` carried by
`ErrorResponse`. -/
structure ErrorInfo where
  type : String
  message : String
deriving DecidableEq

/-- `ErrorResponse` pydantic model (events-agent/main.py). -/
structure ErrorResponse where
  error : ErrorInfo
  destination : String
  agent_id : String
deriving DecidableEq

def AGENT_ID : String := "events-agent-001"

/-- One entry of `SAMPLE_EVENTS` (name, type, venue). -/
structure SampleEvent where
  name : String
  type : String
  venue : String
deriving DecidableEq

/-- `SAMPLE_EVENTS` (events-agent/main.py, lines 68-109), as an
association list preserving the dict insertion order. -/
def SAMPLE_EVENTS : List (String × List SampleEvent) :=
  [ ("paris",
      [⟨"Louvre Late Night", "museum", "Louvre Museum"⟩,
       ⟨"Seine River Cruise", "tour", "Port de la Bourdonnais"⟩,
       ⟨"Jazz at Le Caveau", "music", "Le Caveau de la Huchette"⟩]),
    ("london",
      [⟨"West End Show", "theater", "Various"⟩,
       ⟨"Borough Market Food Tour", "food", "Borough Market"⟩,
       ⟨"British Museum Exhibition", "museum", "British Museum"⟩]),
    ("tokyo",
      [⟨"Shibuya Night Walk", "tour", "Shibuya"⟩,
       ⟨"Tsukiji Outer Market", "food", "Tsukiji"⟩,
       ⟨"Robot Restaurant Show", "entertainment", "Shinjuku"⟩]),
    ("berlin",
      [⟨"Berlin Wall Tour", "tour", "East Side Gallery"⟩,
       ⟨"Techno Night", "music", "Berghain"⟩,
       ⟨"Museum Island Visit", "museum", "Museum Island"⟩]),
    ("new york",
      [⟨"Broadway Show", "theater", "Times Square"⟩,
       ⟨"Central Park Walk", "tour", "Central Park"⟩,
       ⟨"Jazz at Blue Note", "music", "Blue Note"⟩]),
    ("sydney",
      [⟨"Opera House Tour", "tour", "Sydney Opera House"⟩,
       ⟨"Bondi Beach Day", "outdoor", "Bondi Beach"⟩,
       ⟨"Harbour Bridge Climb", "adventure", "Sydney Harbour"⟩]),
    ("mumbai",
      [⟨"Bollywood Studio Tour", "tour", "Film City"⟩,
       ⟨"Street Food Walk", "food", "Chowpatty Beach"⟩,
       ⟨"Gateway of India Visit", "landmark", "Gateway of India"⟩]),
    ("seattle",
      [⟨"Pike Place Market Tour", "food", "Pike Place"⟩,
       ⟨"Space Needle Visit", "landmark", "Space Needle"⟩,
       ⟨"Coffee Crawl", "food", "Capitol Hill"⟩]) ]

/-- `should_inject_fault` (events-agent/main.py, lines 171-174), with
the `random.random()` draw `r` passed in. -/
def should_inject_fault (fault : Option FaultConfig) (r : ℚ) : Bool :=
  match fault with
  | none => false
  | some f => decide (r < f.probability)

/-- The fields of one element of the MCP "events" result list that the
agent reads: mandatory "name" and "type", optional "venue" and "date". -/
structure JsonEvent where
  name : String
  type : String
  venue : Option String := none
  date : Option String := none
deriving DecidableEq

/-- The `/events` endpoint returns either an `EventsResponse` or an
`ErrorResponse` (both serialised as JSON by FastAPI). -/
inductive EventsResult where
  | ok (r : EventsResponse)
  | err (r : ErrorResponse)
deriving DecidableEq

/-- The `destination` field of the returned JSON body, for either
response shape. -/
def EventsResult.destination : EventsResult → String
  | .ok r => r.destination
  | .err r => r.destination

/-- Observable outcome of one `/events` request: the response body,
whether the MCP tool call was issued, and the value of the
`fault.injected` span attribute (set exactly when a fault branch is
entered). -/
structure EventsRun where
  response : EventsResult
  mcpCalled : Bool
  faultInjected : Option String
deriving DecidableEq

/-- `random.choice` on a list of city keys, with the drawn index passed
in; at the call site in `get_events` the list is never empty, so the
default is never used. -/
def choiceFrom (l : List String) (i : Nat) : String :=
  l.getD (i % l.length) "paris"

/-- `random.sample(l, k)`: some k-element selection; modelled as taking
k elements of a rotation of the list, with the rotation passed in (no
claim inspects which elements the sample picks). -/
def sampleTake (l : List SampleEvent) (rot k : Nat) : List SampleEvent :=
  (l.rotate rot).take k

/-- The tool-execution tail of `get_events` (events-agent/main.py,
lines 257-287): one MCP `tools/call fetch_events_api` call whose parsed
"events" result is `mcpEvents`; events are rebuilt with defaults
`venue = "TBD"` and `date = date`. -/
def mcpPath (request : EventsRequest) (date : String) (mcpEvents : List JsonEvent)
    (fi : Option String) : EventsRun :=
  let events := mcpEvents.map (fun e =>
    { name := e.name, type := e.type, venue := e.venue.getD "TBD",
      date := e.date.getD date : Event })
  let resp : EventsResponse :=
    { destination := request.destination, events := events, agent_id := AGENT_ID }
  { response := .ok resp, mcpCalled := true, faultInjected := fi }

/-- `get_events` (events-agent/main.py, lines 182-287).  Oracles: `r`
is the `random.random()` draw of `should_inject_fault`, `choiceIdx` the
`random.choice` index for the wrong city, `rotIdx` the `random.sample`
selection, `nowDate` the formatted current date, and `mcpEvents` the
parsed MCP result. -/
def get_events (request : EventsRequest) (r : ℚ) (choiceIdx rotIdx : Nat)
    (nowDate : String) (mcpEvents : List JsonEvent) : EventsRun :=
  let destination := request.destination.toLower
  let date := match request.date with
    | some d => if d = "" then nowDate else d
    | none => nowDate
  let errResp : String → String → String → EventsRun := fun ft t m =>
    let info : ErrorInfo := { type := t, message := m }
    let body : ErrorResponse :=
      { error := info, destination := request.destination, agent_id := AGENT_ID }
    { response := .err body, mcpCalled := false, faultInjected := some ft }
  let okResp : List Event → Option String → EventsRun := fun evs fi =>
    let body : EventsResponse :=
      { destination := request.destination, events := evs, agent_id := AGENT_ID }
    { response := .ok body, mcpCalled := false, faultInjected := fi }
  match request.fault with
  | some f =>
      if should_inject_fault (some f) r then
        if f.type = "high_latency" then
          mcpPath request date mcpEvents (some f.type)
        else if f.type = "timeout" then
          errResp f.type "timeout" "Events lookup timed out"
        else if f.type = "error" then
          errResp f.type "tool_error" "Events API returned an error"
        else if f.type = "rate_limited" then
          errResp f.type "rate_limited" "Events API rate limit exceeded"
        else if f.type = "wrong_city" then
          let keys := (SAMPLE_EVENTS.map Prod.fst).filter (fun c => c ≠ destination)
          let wrong := match f.wrong_city with
            | some w => if w = "" then choiceFrom keys choiceIdx else w
            | none => choiceFrom keys choiceIdx
          let paris_events := (List.lookup "paris" SAMPLE_EVENTS).getD []
          let events_data := (List.lookup wrong SAMPLE_EVENTS).getD paris_events
          let selected := sampleTake events_data rotIdx (min events_data.length 2)
          let events := selected.map (fun e =>
            { name := e.name, type := e.type, venue := e.venue, date := date : Event })
          okResp events (some f.type)
        else if f.type = "empty" then
          okResp [] (some f.type)
        else
          mcpPath request date mcpEvents (some f.type)
      else
        mcpPath request date mcpEvents none
  | none => mcpPath request date mcpEvents none

end EventsAgent

namespace Mcp

/-- The "arguments" dict of a tools/call request: the two keys the
tools read. -/
structure Arguments where
  location : Option String := none
  destination : Option String := none
deriving DecidableEq

/-- `ToolCallRequest` pydantic model (mcp-server/main.py); the `params`
dict is represented by the two fields the handler reads
(`params.get("name")`, `params.get("arguments")`). -/
structure ToolCallRequest where
  jsonrpc : String := "2.0"
  method : String := "tools/call"
  id : Option String := none
  params_name : Option String := none
  params_arguments : Arguments := {}
deriving DecidableEq

/-- The random draws of `execute_tool`: `temp` models
`randint(50, 90)`, `cond` the `choice` over the four conditions,
`humidity`/`wind` the remaining randints, `k` models `randint(1, 3)`
(value `k.val + 1`) and `rot` the `random.sample` selection. -/
structure Rng where
  temp : Nat
  cond : Fin 4
  humidity : Nat
  wind : Nat
  k : Fin 3
  rot : Nat
deriving DecidableEq

/-- One element of the fabricated events list ("name", "date", "type"). -/
structure SampledEvent where
  name : String
  date : String
  type : String
deriving DecidableEq

/-- The two possible tool result dicts of `execute_tool`
(mcp-server/main.py, lines 108-134). -/
inductive ToolResult where
  | weather (location temperature condition humidity wind_speed : String)
  | events (destination : String) (events : List SampledEvent)
deriving DecidableEq

def CONDITIONS : List String := ["sunny", "cloudy", "rainy", "partly cloudy"]

/-- `execute_tool` (mcp-server/main.py, lines 108-134); the `else`
branch raises `ValueError`, modelled as `Except.error` with the message. -/
def execute_tool (name : String) (args : Arguments) (rng : Rng) :
    Except String ToolResult :=
  if name = "fetch_weather_api" then
    let location := args.location.getD "Unknown"
    Except.ok (.weather location (toString rng.temp ++ "°F")
      (CONDITIONS.getD rng.cond.val "") (toString rng.humidity ++ "%")
      (toString rng.wind ++ " mph"))
  else if name = "fetch_events_api" then
    let destination := args.destination.getD "Unknown"
    let events : List SampledEvent :=
      [ { name := destination ++ " Food Festival", date := "2025-03-15", type := "food" },
        { name := destination ++ " Art Walk", date := "2025-03-20", type := "art" },
        { name := "Live Music at " ++ (destination ++ " Park"), date := "2025-03-22", type := "music" } ]
    Except.ok (.events destination ((events.rotate rng.rot).take (rng.k.val + 1)))
  else
    Except.error ("Unknown tool: " ++ name)

/-- The JSON bodies returned by `handle_mcp`: either
`{"jsonrpc": ..., "id": ..., "result": ...}` or
`{"jsonrpc": ..., "id": ..., "error": {"code": ..., "message": ...}}`. -/
inductive McpResponse where
  | result (jsonrpc : String) (id : String) (res : ToolResult)
  | rpcError (jsonrpc : String) (id : String) (code : Int) (message : String)
deriving DecidableEq

def McpResponse.jsonrpcOf : McpResponse → String
  | .result j _ _ => j
  | .rpcError j _ _ _ => j

def McpResponse.idOf : McpResponse → String
  | .result _ i _ => i
  | .rpcError _ i _ _ => i

/-- Whether the body carries a "result" key (otherwise it carries an
"error" key; the two return statements are mutually exclusive). -/
def McpResponse.isResult : McpResponse → Bool
  | .result _ _ _ => true
  | .rpcError _ _ _ _ => false

def McpResponse.codeOf : McpResponse → Option Int
  | .result _ _ _ => none
  | .rpcError _ _ c _ => some c

/-- `handle_mcp` (mcp-server/main.py, lines 64-105).  `genId` models
`str(uuid4().hex[:8])`, the freshly generated fallback id (always 8
characters since `uuid4().hex` has 32).  Note Python
`body.id or str(uuid4().hex[:8])` falls back to the generated id also
when `body.id` is the empty string. -/
def handle_mcp (body : ToolCallRequest) (genId : String) (rng : Rng) : McpResponse :=
  let request_id := match body.id with
    | some i => if i = "" then genId else i
    | none => genId
  let tool_name := body.params_name.getD "unknown"
  match execute_tool tool_name body.params_arguments rng with
  | .ok r => .result "2.0" request_id r
  | .error m => .rpcError "2.0" request_id (-32000) m

end Mcp

namespace WAgent

/-- `FaultConfig` dataclass (weather-agent/main.py, lines 69-75). -/
structure FaultConfig where
  type : String
  delay_ms : Nat := 0
  probability : ℚ := 1
  tool : Option String := none
deriving DecidableEq

/-- `AgentError` (weather-agent/main.py, lines 46-66): message,
`error_type` and `status_code`. -/
structure AgentError where
  message : String
  error_type : String
  status_code : Nat
deriving DecidableEq

def ToolTimeoutError (m : String) : AgentError :=
  { message := m, error_type := "timeout", status_code := 504 }

def ToolExecutionError (m : String) : AgentError :=
  { message := m, error_type := "tool_error", status_code := 502 }

def RateLimitError (m : String) : AgentError :=
  { message := m, error_type := "rate_limit_exceeded", status_code := 429 }

/-- Exceptions that can escape `WeatherAgent.invoke`. -/
inductive PyExn where
  | agentError (e : AgentError)
  | valueError (msg : String)
  | indexError (msg : String)
deriving DecidableEq

/-- `WeatherAgent._should_inject_fault` (weather-agent/main.py, lines
319-323), with the `random.random()` draw passed in. -/
def should_inject_fault (fault : Option FaultConfig) (r : ℚ) : Bool :=
  match fault with
  | none => false
  | some f => decide (r < f.probability)

/-- Result dict of `get_weather` (weather-agent/main.py, lines 134-154). -/
structure WeatherData where
  location : String
  temperature : String
  condition : String
  humidity : String
  wind_speed : String
deriving DecidableEq

/-- One forecast entry of `get_forecast`. -/
structure ForecastDay where
  day : Nat
  high : String
  low : String
  condition : String
deriving DecidableEq

/-- The three tool result dicts: `get_weather` (has "temperature"),
`get_forecast` (has "forecast") and `get_historical_weather` (has
"date"); `invoke` discriminates on exactly those keys. -/
inductive ToolResult where
  | current (w : WeatherData)
  | forecast (location : String) (days : List ForecastDay)
  | historical (location date high low condition precipitation : String)
deriving DecidableEq

def get_weather (location : String) : WeatherData :=
  { location := location, temperature := "57°F", condition := "rainy",
    humidity := "85%", wind_speed := "12 mph" }

/-- `get_forecast` (weather-agent/main.py, lines 157-169). -/
def get_forecast (location : String) (days : Nat) : ToolResult :=
  let conditions := ["sunny", "cloudy", "rainy", "partly cloudy"]
  .forecast location ((List.range days).map (fun i =>
    { day := i + 1, high := toString (65 + i * 3) ++ "°F",
      low := toString (45 + i * 2) ++ "°F",
      condition := conditions.getD (i % conditions.length) "" }))

/-- `get_historical_weather` (weather-agent/main.py, lines 172-182). -/
def get_historical_weather (location date : String) : ToolResult :=
  .historical location date "62°F" "48°F" "partly cloudy" "0.1 in"

/-- The tool call chosen by the simulated LLM. -/
structure LlmToolCall where
  id : String
  name : String
  arguments_location : String
  arguments_days : Option Nat := none
  arguments_date : Option String := none
deriving DecidableEq

/-- Python `w in s` substring test (`w` nonempty at every call site). -/
def strContains (s pat : String) : Bool := (s.splitOn pat).length != 1

def FORECAST_WORDS : List String := ["forecast", "next", "tomorrow", "week", "upcoming"]

def HISTORICAL_WORDS : List String := ["yesterday", "last", "historical", "was", "were", "past"]

/-- Python `s.split()[-1]`: the last whitespace-separated word.  (On a
string with no words Python raises IndexError; every message produced
by the repo callers is non-blank, so the default is unreachable there.) -/
def lastWord (s : String) : String :=
  (((s.split (fun c => c.isWhitespace)).filter (fun w => w ≠ "")).getLastD "")

/-- `call_llm` (weather-agent/main.py, lines 186-232): keyword-driven
tool selection over the lowercased message; the location is the last
word of the message with trailing question marks stripped. -/
def call_llm (content : String) : LlmToolCall :=
  let user_message := content.toLower
  let location := (lastWord content).dropRightWhile (fun c => c = '?')
  if FORECAST_WORDS.any (fun w => strContains user_message w) then
    { id := "call_abc123", name := "get_forecast", arguments_location := location,
      arguments_days := some 3 }
  else if HISTORICAL_WORDS.any (fun w => strContains user_message w) then
    { id := "call_abc123", name := "get_historical_weather",
      arguments_location := location, arguments_date := some "2026-01-25" }
  else
    { id := "call_abc123", name := "get_current_weather", arguments_location := location }

/-- The `wrong_tools` swap map of the wrong_tool fault
(weather-agent/main.py, lines 485-490). -/
def wrongTools (t : String) : String :=
  if t = "get_current_weather" then "get_forecast"
  else if t = "get_forecast" then "get_historical_weather"
  else if t = "get_historical_weather" then "get_current_weather"
  else t

/-- `WeatherAgent.execute_tool` (weather-agent/main.py, lines 563-674),
with the `random.random()` draw of its fault check passed in.  Returns
the result (or escaping exception) together with the list of tool
functions actually executed.  The source messages quote the tool name
in single quotes; the quotes are dropped here. -/
def execute_tool (tool_name location : String) (days : Option Nat)
    (date : Option String) (fault : Option FaultConfig) (r : ℚ) :
    Except PyExn ToolResult × List String :=
  let faultOutcome : Option PyExn :=
    match fault with
    | some f =>
        if should_inject_fault (some f) r
            && (f.type == "tool_timeout" || f.type == "tool_error"
                || f.type == "high_latency") then
          let target := match f.tool with
            | some t => if t = "" then tool_name else t
            | none => tool_name
          if target = tool_name then
            if f.type == "tool_timeout" then
              some (.agentError (ToolTimeoutError
                ("Tool " ++ (tool_name ++ " timed out after 30000ms"))))
            else if f.type == "tool_error" then
              some (.agentError (ToolExecutionError
                ("Tool " ++ (tool_name ++ " failed: External API returned 503"))))
            else none
          else none
        else none
    | none => none
  match faultOutcome with
  | some e => (.error e, [])
  | none =>
      if tool_name = "get_current_weather" then
        (.ok (.current (get_weather location)), [tool_name])
      else if tool_name = "get_forecast" then
        (.ok (get_forecast location (days.getD 3)), [tool_name])
      else if tool_name = "get_historical_weather" then
        (.ok (get_historical_weather location (date.getD "2026-01-01")), [tool_name])
      else if tool_name = "get_weather" then
        (.ok (.current (get_weather location)), [tool_name])
      else
        (.error (.valueError ("Unknown tool: " ++ tool_name)), [])

instance : DecidableEq (Except PyExn String) := fun a b =>
  match a, b with
  | .ok x, .ok y => if h : x = y then .isTrue (by rw [h]) else .isFalse (by simp [h])
  | .error x, .error y => if h : x = y then .isTrue (by rw [h]) else .isFalse (by simp [h])
  | .ok _, .error _ => .isFalse (by simp)
  | .error _, .ok _ => .isFalse (by simp)

/-- Observable outcome of one `WeatherAgent.invoke` call: the returned
string (or the exception that escaped), whether the LLM was called, and
which tool functions ran. -/
structure InvokeRun where
  result : Except PyExn String
  llmCalled : Bool
  toolsRun : List String
deriving DecidableEq

/-- Continuation of `invoke` after the pre-LLM fault check
(weather-agent/main.py, lines 422-545).  The pre-LLM check consumed
draw 0; the token-limit, wrong-tool and execute-tool checks are the
2nd, 3rd and 4th `random.random()` calls, hence draws 1, 2 and 3. -/
def invokeRest (user_message : String) (fault : Option FaultConfig)
    (rs : Nat → ℚ) : InvokeRun :=
  let llm := call_llm user_message
  let tokenLimit : Bool :=
    match fault with
    | some f => should_inject_fault (some f) (rs 1) && f.type == "token_limit_exceeded"
    | none => false
  if tokenLimit then
    { result := .ok "The weather in the requested location is currently showing temperatures around—",
      llmCalled := true, toolsRun := [] }
  else
    let wrongToolInjected : Bool :=
      match fault with
      | some f => should_inject_fault (some f) (rs 2) && f.type == "wrong_tool"
      | none => false
    let tool_name := if wrongToolInjected then wrongTools llm.name else llm.name
    let args_date := if wrongToolInjected && (tool_name == "get_historical_weather")
      then some "2026-01-25" else llm.arguments_date
    match execute_tool tool_name llm.arguments_location llm.arguments_days
        args_date fault (rs 3) with
    | (.error e, ts) => { result := .error e, llmCalled := true, toolsRun := ts }
    | (.ok tr, ts) =>
        let final_response :=
          match tr with
          | .current w =>
              "The weather in " ++ (w.location ++ (" is " ++ (w.condition ++
                (" with a temperature of " ++ (w.temperature ++ ".")))))
          | .forecast loc ds =>
              match ds with
              | [] => "Forecast for " ++ (loc ++ ": empty")
              | d0 :: _ =>
                  "Forecast for " ++ (loc ++ (": Day 1: " ++ (d0.condition ++
                    (", high " ++ (d0.high ++ ".")))))
          | .historical loc date high _low condition _prec =>
              "On " ++ (date ++ (" in " ++ (loc ++ (": " ++ (condition ++
                (", high " ++ (high ++ ".")))))))
        { result := .ok final_response, llmCalled := true, toolsRun := ts }

/-- `WeatherAgent.invoke` (weather-agent/main.py, lines 325-561).
`rs n` is the n-th `random.random()` draw made during the call (the
`.forecast []` branch of the final response is unreachable: the
forecast list always has `days = 3` entries; Python would raise
IndexError there). -/
def invoke (user_message conversation_id : String) (fault : Option FaultConfig)
    (rs : Nat → ℚ) : InvokeRun :=
  match fault with
  | some f =>
      if should_inject_fault (some f) (rs 0) then
        if f.type = "rate_limited" then
          { result := .error (.agentError
              (RateLimitError "Rate limit exceeded. Retry after 60 seconds.")),
            llmCalled := false, toolsRun := [] }
        else if f.type = "hallucination" then
          { result := .ok "The weather is 22°C and sunny with light winds.",
            llmCalled := false, toolsRun := [] }
        else invokeRest user_message fault rs
      else invokeRest user_message fault rs
  | none => invokeRest user_message fault rs

end WAgent

namespace Canary

/-- `DEFAULT_FAULT_WEIGHTS` (canary.py, lines 24-33), as exact
rationals. -/
def DEFAULT_FAULT_WEIGHTS : List (String × ℚ) :=
  [ ("none", 55 / 100),
    ("high_latency", 10 / 100),
    ("tool_timeout", 7 / 100),
    ("tool_error", 7 / 100),
    ("token_limit_exceeded", 5 / 100),
    ("rate_limited", 4 / 100),
    ("hallucination", 4 / 100),
    ("wrong_tool", 8 / 100) ]

/-- One fault configuration dict of `FAULT_CONFIGS`. -/
structure CanaryFault where
  type : String
  delay_ms : Nat := 0
deriving DecidableEq

/-- `FAULT_CONFIGS` (canary.py, lines 37-46): key "none" maps to the
value `None`. -/
def FAULT_CONFIGS : List (String × Option CanaryFault) :=
  [ ("none", none),
    ("high_latency", some { type := "high_latency", delay_ms := 3000 }),
    ("tool_timeout", some { type := "tool_timeout" }),
    ("tool_error", some { type := "tool_error" }),
    ("token_limit_exceeded", some { type := "token_limit_exceeded" }),
    ("rate_limited", some { type := "rate_limited" }),
    ("hallucination", some { type := "hallucination" }),
    ("wrong_tool", some { type := "wrong_tool" }) ]

/-- `FAULT_CONFIGS.get(k)` (a missing key and the value `None` both
yield `none`). -/
def faultConfigFor (k : String) : Option CanaryFault :=
  (List.lookup k FAULT_CONFIGS).join

/-- `random.choices(keys, weights)[0]`: the uniform draw
`x = random() * total` is located in the cumulative weight table;
`none` models the ValueError `random.choices` raises when the draw
falls past the table. -/
def choose_weighted : List (String × ℚ) → ℚ → Option String
  | [], _ => none
  | (k, w) :: rest, x => if x < w then some k else choose_weighted rest (x - w)

/-- `select_fault` (canary.py, lines 65-70) under the default weights
(total weight 1, so `x` ranges over the unit interval); the outer
`Option` is `none` exactly when `random.choices` would raise. -/
def select_fault (x : ℚ) : Option (Option CanaryFault) :=
  (choose_weighted DEFAULT_FAULT_WEIGHTS x).map faultConfigFor

/-- The counters of the canary main loop (canary.py, lines 153-157). -/
structure CanaryState where
  invocation_count : Nat
  success_count : Nat
  fault_counts : List (String × Nat)
  error_counts : List (String × Nat)
deriving DecidableEq

/-- The counter initialisation before the loop:
`fault_counts = {k: 0 for k in FAULT_CONFIGS.keys()}`. -/
def initState : CanaryState :=
  { invocation_count := 0, success_count := 0,
    fault_counts := FAULT_CONFIGS.map (fun p => (p.1, 0)), error_counts := [] }

/-- Python `d[k] = d.get(k, 0) + 1` on an insertion-ordered dict. -/
def bump : List (String × Nat) → String → List (String × Nat)
  | [], k => [(k, 1)]
  | (k', v) :: rest, k =>
      if k' = k then (k', v + 1) :: rest else (k', v) :: bump rest k

/-- The `(success, error_type)` pairs `invoke_agent` can return:
`(True, None)`, `(False, some type)` or `(False, None)` (the latter
when the error dict has no "type" key). -/
inductive InvokeOutcome where
  | success
  | failure (errType : Option String)
deriving DecidableEq

/-- One iteration of the canary main loop (canary.py, lines 159-183),
given the fault draw `x` and the invocation outcome.  `random.random()`
always lies in `[0, 1)`, where the weighted draw succeeds, so the
`.join` totalisation of a failed draw is unreachable. -/
def step (s : CanaryState) (x : ℚ) (o : InvokeOutcome) : CanaryState :=
  let invocation_count := s.invocation_count + 1
  let fault := (select_fault x).join
  let fault_type := match fault with
    | some f => f.type
    | none => "none"
  let fault_counts := bump s.fault_counts fault_type
  match o with
  | .success =>
      { invocation_count := invocation_count,
        success_count := s.success_count + 1,
        fault_counts := fault_counts, error_counts := s.error_counts }
  | .failure (some e) =>
      if e = "" then
        { invocation_count := invocation_count,
          success_count := s.success_count,
          fault_counts := fault_counts, error_counts := s.error_counts }
      else
        { invocation_count := invocation_count,
          success_count := s.success_count,
          fault_counts := fault_counts, error_counts := bump s.error_counts e }
  | .failure none =>
      { invocation_count := invocation_count,
        success_count := s.success_count,
        fault_counts := fault_counts, error_counts := s.error_counts }

/-- Any number of loop iterations from a starting state. -/
def run (s : CanaryState) (inputs : List (ℚ × InvokeOutcome)) : CanaryState :=
  inputs.foldl (fun acc p => step acc p.1 p.2) s

/-- Sum of the values of a counter dict. -/
def sumVals (m : List (String × Nat)) : Nat := (m.map Prod.snd).sum

/-- The C10 loop invariant. -/
def canaryInvariant (s : CanaryState) : Prop :=
  sumVals s.fault_counts = s.invocation_count ∧
  s.success_count ≤ s.invocation_count ∧
  s.success_count + sumVals s.error_counts ≤ s.invocation_count

end Canary

namespace Dash

/-- A saved index-pattern object: server-side id and title. -/
structure IndexPattern where
  id : String
  title : String
deriving DecidableEq

/-- The attributes sent for a saved query
(init-opensearch-dashboards.py, lines 562-567). -/
structure QueryAttributes where
  title : String
  description : String
  query : String
  language : String
deriving DecidableEq

/-- Model of the OpenSearch Dashboards saved-objects store the init
script talks to: the saved index patterns, the saved queries keyed by
their client-chosen id, and a counter for server-generated ids. -/
structure DashState where
  indexPatterns : List IndexPattern
  savedQueries : List (String × QueryAttributes)
  freshCounter : Nat
deriving DecidableEq

/-- `get_existing_index_pattern` (init-opensearch-dashboards.py, lines
98-126): the `_find` search returns the saved index patterns and the
client keeps the id of the first whose title is exactly `title`.
(Modelling the server search as returning every saved pattern is sound:
a search for `title` matches at least the exact-title objects and the
client filter discards everything else.) -/
def get_existing_index_pattern (s : DashState) (title : String) : Option String :=
  ((s.indexPatterns).find? (fun p => p.title == title)).map IndexPattern.id

/-- `create_index_pattern` (init-opensearch-dashboards.py, lines
129-183) against a healthy server: if a pattern with the title exists
its id is returned with no create request; otherwise the create POST
stores a new pattern under a server-generated id, which is returned.
(The `None` results of HTTP failures are outside this model.) -/
def create_index_pattern (s : DashState) (title : String) :
    Option String × DashState :=
  match get_existing_index_pattern s title with
  | some i => (some i, s)
  | none =>
      let newId := "ip-" ++ toString s.freshCounter
      (some newId,
       { s with
           indexPatterns := s.indexPatterns ++ [{ id := newId, title := title }],
           freshCounter := s.freshCounter + 1 })

/-- Replace the attributes stored under `qid` (the server-side effect
of the update PUT). -/
def setQueryAttrs : List (String × QueryAttributes) → String → QueryAttributes →
    List (String × QueryAttributes)
  | [], _, _ => []
  | (i, a) :: rest, qid, attrs =>
      if i = qid then (i, attrs) :: rest else (i, a) :: setQueryAttrs rest qid attrs

/-- `create_or_update_saved_query` (init-opensearch-dashboards.py,
lines 556-618) against a healthy server: the create POST to
`saved_objects/query/{query_id}` succeeds when the id is free and
returns 409 Conflict when it is taken, in which case the script PUTs
the same attributes; both paths return `query_id`. -/
def create_or_update_saved_query (s : DashState) (query_id : String)
    (attrs : QueryAttributes) : Option String × DashState :=
  if (s.savedQueries.lookup query_id).isSome then
    (some query_id,
     { s with savedQueries := setQueryAttrs s.savedQueries query_id attrs })
  else
    (some query_id, { s with savedQueries := s.savedQueries ++ [(query_id, attrs)] })

end Dash

theorem String.append_head_ne (a s b : String) (c₁ c₂ : Char)
    (h₁ : a.data.head? = some c₁) (h₂ : b.data.head? = some c₂) (hne : c₁ ≠ c₂) :
    a ++ s ≠ b := by
  intro he
  apply hne
  have hd : (a ++ s).data = b.data := by rw [he]
  rw [String.data_append] at hd
  cases ha : a.data with
  | nil => rw [ha] at h₁; cases h₁
  | cons y ys =>
      rw [ha] at hd h₁
      have hy1 : y = c₁ := by simpa using h₁
      have hy2 : y = c₂ := by
        rw [← hd] at h₂
        simpa using h₂
      rw [← hy1, ← hy2]

theorem Orch.header_ne_wsent (d : String) :
    ¬ ("Weather info temporarily unavailable."
        = "Great choice! " ++ (d ++ " looks wonderful.")) := by
  intro h
  exact String.append_head_ne "Great choice! " (d ++ " looks wonderful.")
    "Weather info temporarily unavailable." 'G' 'W' rfl rfl (by decide) h.symm

theorem Orch.header_ne_esent (d : String) :
    ¬ ("Events info temporarily unavailable."
        = "Great choice! " ++ (d ++ " looks wonderful.")) := by
  intro h
  exact String.append_head_ne "Great choice! " (d ++ " looks wonderful.")
    "Events info temporarily unavailable." 'G' 'E' rfl rfl (by decide) h.symm

theorem Orch.checkout_ne_wsent (j : String) :
    ¬ ("Weather info temporarily unavailable." = "Check out " ++ (j ++ ".")) := by
  intro h
  exact String.append_head_ne "Check out " (j ++ ".")
    "Weather info temporarily unavailable." 'C' 'W' rfl rfl (by decide) h.symm

theorem Orch.checkout_ne_esent (j : String) :
    ¬ ("Events info temporarily unavailable." = "Check out " ++ (j ++ ".")) := by
  intro h
  exact String.append_head_ne "Check out " (j ++ ".")
    "Events info temporarily unavailable." 'C' 'E' rfl rfl (by decide) h.symm

theorem Orch.orchTimeout_eq (fault : Option Orch.FaultConfig) :
    Orch.orchTimeout fault
      = if (fault.bind Orch.FaultConfig.orchestrator) = some "fan_out_timeout"
        then 1 / 1000 else 30 := by
  cases fault with
  | none => rfl
  | some f =>
      cases h : f.orchestrator with
      | none => simp [Orch.orchTimeout, h]
      | some o => simp [Orch.orchTimeout, h]

theorem Dash.find?_title_append (l : List Dash.IndexPattern) (x : Dash.IndexPattern)
    (title : String) (h : l.find? (fun p => p.title == title) = none) :
    (l ++ [x]).find? (fun p => p.title == title)
      = [x].find? (fun p => p.title == title) := by
  induction l with
  | nil => rfl
  | cons a as ih =>
      cases ha : (a.title == title) with
      | true =>
          rw [List.find?] at h
          rw [ha] at h
          cases h
      | false =>
          rw [List.find?] at h
          rw [ha] at h
          rw [List.cons_append, List.find?, ha]
          exact ih h

theorem Dash.lookup_setQueryAttrs (l : List (String × Dash.QueryAttributes))
    (qid : String) (attrs : Dash.QueryAttributes) :
    ((Dash.setQueryAttrs l qid attrs).lookup qid).isSome = (l.lookup qid).isSome := by
  induction l with
  | nil => rfl
  | cons p rest ih =>
      obtain ⟨i, a⟩ := p
      by_cases h : i = qid
      · subst h
        simp [Dash.setQueryAttrs, List.lookup]
      · have hne : (qid == i) = false := by
          simp [BEq.beq]
          exact fun hh => h hh.symm
        simp [Dash.setQueryAttrs, h, List.lookup, hne, ih]

theorem Dash.setQueryAttrs_idem (l : List (String × Dash.QueryAttributes))
    (qid : String) (attrs : Dash.QueryAttributes) :
    Dash.setQueryAttrs (Dash.setQueryAttrs l qid attrs) qid attrs
      = Dash.setQueryAttrs l qid attrs := by
  induction l with
  | nil => rfl
  | cons p rest ih =>
      obtain ⟨i, a⟩ := p
      by_cases h : i = qid <;> simp [Dash.setQueryAttrs, h, ih]

theorem Dash.lookup_append_single (l : List (String × Dash.QueryAttributes))
    (qid : String) (attrs : Dash.QueryAttributes) (h : l.lookup qid = none) :
    (l ++ [(qid, attrs)]).lookup qid = some attrs := by
  induction l with
  | nil => simp [List.lookup]
  | cons p rest ih =>
      obtain ⟨i, a⟩ := p
      rw [List.lookup] at h
      cases hqi : (qid == i) with
      | true => rw [hqi] at h; cases h
      | false =>
          rw [hqi] at h
          rw [List.cons_append, List.lookup, hqi]
          exact ih h

theorem Dash.setQueryAttrs_append_single (l : List (String × Dash.QueryAttributes))
    (qid : String) (attrs : Dash.QueryAttributes) (h : l.lookup qid = none) :
    Dash.setQueryAttrs (l ++ [(qid, attrs)]) qid attrs = l ++ [(qid, attrs)] := by
  induction l with
  | nil => simp [Dash.setQueryAttrs]
  | cons p rest ih =>
      obtain ⟨i, a⟩ := p
      rw [List.lookup] at h
      cases hqi : (qid == i) with
      | true => rw [hqi] at h; cases h
      | false =>
          rw [hqi] at h
          have hiq : ¬ (i = qid) := by
            intro hh
            subst hh
            simp at hqi
          rw [List.cons_append, Dash.setQueryAttrs, if_neg hiq, ih h]

theorem Canary.sumVals_bump (m : List (String × Nat)) (k : String) :
    Canary.sumVals (Canary.bump m k) = Canary.sumVals m + 1 := by
  induction m with
  | nil => rfl
  | cons p rest ih =>
      obtain ⟨k', v⟩ := p
      by_cases h : k' = k
      · simp [Canary.bump, h, Canary.sumVals]
        omega
      · simp only [Canary.bump, if_neg h]
        simp [Canary.sumVals] at ih ⊢
        omega

theorem Canary.initState_invariant : Canary.canaryInvariant Canary.initState := by
  refine ⟨?_, ?_, ?_⟩ <;> simp [Canary.initState, Canary.canaryInvariant,
    Canary.sumVals, Canary.FAULT_CONFIGS]

theorem Canary.step_preserves (s : Canary.CanaryState) (x : ℚ)
    (o : Canary.InvokeOutcome) (h : Canary.canaryInvariant s) :
    Canary.canaryInvariant (Canary.step s x o) := by
  obtain ⟨h1, h2, h3⟩ := h
  cases o with
  | success =>
      refine ⟨?_, ?_, ?_⟩ <;>
        simp [Canary.step, Canary.canaryInvariant, Canary.sumVals_bump, h1] <;> omega
  | failure e =>
      cases e with
      | none =>
          refine ⟨?_, ?_, ?_⟩ <;>
            simp [Canary.step, Canary.canaryInvariant, Canary.sumVals_bump, h1] <;> omega
      | some t =>
          by_cases ht : t = "" <;>
            (refine ⟨?_, ?_, ?_⟩ <;>
              simp [Canary.step, Canary.canaryInvariant, Canary.sumVals_bump, ht, h1] <;> omega)

/-- Claim C1 (code_bug): the claim says a failed events-agent call is
recorded in `errors` and a partial `PlanResponse` is still returned;
but the `except` handler of the events call (orchestrator/main.py,
line 240) refers to the undefined name `tool_span`, so when the events
HTTP call raises, a `NameError` escapes `plan_trip` instead and no
`PlanResponse` is produced.  This theorem evaluates the model at such a
failing input (weather succeeded, events call raised a connection
error). -/
theorem C1_events_exception_propagates :
    (Orch.plan_trip { destination := "Paris" } false false
        (Orch.CallOutcome.resp 200 "" [("response", "Sunny in Paris")])
        (Orch.CallOutcome.exn "ConnectError")).1
      = Orch.PyOutcome.raised (Orch.PyError.nameError "tool_span") := by
  rfl

/-- Claim C2: during a single `/plan` request the orchestrator issues
at most one request to the weather agent and at most one to the events
agent, in that order (the request trace is a sublist of
`[weather, events]`, so there are no retries), and every issued request
uses timeout 30.0 s except when `request.fault.orchestrator` is
"fan_out_timeout", in which case it is 0.001 s. -/
theorem C2_single_fanout_static_timeout (request : Orch.PlanRequest)
    (coinW coinE : Bool) (wc : Orch.CallOutcome Dict)
    (ec : Orch.CallOutcome Orch.EventsBody) :
    ((Orch.plan_trip request coinW coinE wc ec).2.map Orch.SentRequest.agent).Sublist
        ["weather", "events"]
    ∧ ∀ req ∈ (Orch.plan_trip request coinW coinE wc ec).2,
        req.timeout
          = if (request.fault.bind Orch.FaultConfig.orchestrator) = some "fan_out_timeout"
            then 1 / 1000 else 30 := by
  have h2 : (Orch.plan_trip request coinW coinE wc ec).2
      = (if Orch.partialFailureConfigured request.fault && coinW then []
          else [⟨"weather", Orch.orchTimeout request.fault⟩])
        ++ (if Orch.partialFailureConfigured request.fault && coinE then []
          else [⟨"events", Orch.orchTimeout request.fault⟩]) := rfl
  rw [h2]
  constructor
  · split_ifs <;> simp
  · intro req hreq
    rw [← Orch.orchTimeout_eq]
    split_ifs at hreq <;> simp at hreq <;>
      first
        | (rw [hreq])
        | (rcases hreq with hreq | hreq <;> rw [hreq])

/-- Claim C3: re-running the dashboard-initialisation operations
against unchanged server state creates no duplicate saved objects:
running `create_index_pattern` (or `create_or_update_saved_query`)
twice with the same arguments returns the same id as running it once
and leaves the state produced by the first run unchanged. -/
theorem C3_init_idempotent (s : Dash.DashState) (title query_id : String)
    (attrs : Dash.QueryAttributes) :
    Dash.create_index_pattern (Dash.create_index_pattern s title).2 title
        = Dash.create_index_pattern s title
    ∧ Dash.create_or_update_saved_query
          (Dash.create_or_update_saved_query s query_id attrs).2 query_id attrs
        = Dash.create_or_update_saved_query s query_id attrs := by
  constructor
  · cases h : s.indexPatterns.find? (fun p => p.title == title) with
    | some ip =>
        simp [Dash.create_index_pattern, Dash.get_existing_index_pattern, h]
    | none =>
        have hfind := Dash.find?_title_append s.indexPatterns
          { id := "ip-" ++ toString s.freshCounter, title := title } title h
        simp [Dash.create_index_pattern, Dash.get_existing_index_pattern, h, hfind,
          List.find?]
  · by_cases h : (s.savedQueries.lookup query_id).isSome
    · have h2 : ((Dash.setQueryAttrs s.savedQueries query_id attrs).lookup query_id).isSome :=
        by rw [Dash.lookup_setQueryAttrs]; exact h
      simp [Dash.create_or_update_saved_query, h, h2,
        Dash.setQueryAttrs_idem]
    · have hn : s.savedQueries.lookup query_id = none := by
        cases hl : s.savedQueries.lookup query_id with
        | none => rfl
        | some a => rw [hl] at h; simp at h
      have h2 : ((s.savedQueries ++ [(query_id, attrs)]).lookup query_id).isSome := by
        rw [Dash.lookup_append_single s.savedQueries query_id attrs hn]
        rfl
      simp [Dash.create_or_update_saved_query, h, h2,
        Dash.setQueryAttrs_append_single s.savedQueries query_id attrs hn]

/-- Claim C9: every `/events` response, whether `EventsResponse` or
`ErrorResponse` and under every fault type, carries
`destination = request.destination` exactly as sent (original casing),
even though the internal lookup uses the lowercased destination. -/
theorem C9_destination_preserved (request : EventsAgent.EventsRequest) (r : ℚ)
    (choiceIdx rotIdx : Nat) (nowDate : String)
    (mcpEvents : List EventsAgent.JsonEvent) :
    (EventsAgent.get_events request r choiceIdx rotIdx nowDate mcpEvents).response.destination
      = request.destination := by
  unfold EventsAgent.get_events
  cases request.fault with
  | none => rfl
  | some f =>
      by_cases h : EventsAgent.should_inject_fault (some f) r <;>
        simp only [h, if_true, if_false, Bool.false_eq_true] <;>
        first
          | rfl
          | (split_ifs <;> rfl)

/-- Claim C10: at the end of every iteration of the canary main loop,
the sum of the values of `fault_counts` equals `invocation_count`,
`success_count` is at most `invocation_count`, and `success_count` plus
the sum of the values of `error_counts` is at most `invocation_count`. -/
theorem C10_canary_counters (inputs : List (ℚ × Canary.InvokeOutcome)) :
    Canary.canaryInvariant (Canary.run Canary.initState inputs) := by
  have gen : ∀ (l : List (ℚ × Canary.InvokeOutcome)) (s : Canary.CanaryState),
      Canary.canaryInvariant s → Canary.canaryInvariant (Canary.run s l) := by
    intro l
    induction l with
    | nil => intro s hs; exact hs
    | cons p rest ih =>
        intro s hs
        exact ih (Canary.step s p.1 p.2) (Canary.step_preserves s p.1 p.2 hs)
  exact gen inputs Canary.initState Canary.initState_invariant

theorem Canary.choose_weighted_mem (l : List (String × ℚ)) (x : ℚ) (k : String)
    (h : Canary.choose_weighted l x = some k) : k ∈ l.map Prod.fst := by
  induction l generalizing x with
  | nil => cases h
  | cons p rest ih =>
      obtain ⟨k', w⟩ := p
      simp only [Canary.choose_weighted] at h
      split at h
      · cases h
        simp
      · simp only [List.map, List.mem_cons]
        exact Or.inr (ih (x - w) h)

theorem Canary.choose_weighted_default_total (x : ℚ) (h0 : 0 ≤ x) (h1 : x < 1) :
    ∃ k, Canary.choose_weighted Canary.DEFAULT_FAULT_WEIGHTS x = some k := by
  simp only [Canary.DEFAULT_FAULT_WEIGHTS, Canary.choose_weighted]
  split_ifs <;> first | exact ⟨_, rfl⟩ | (exfalso; linarith)

theorem Mcp.execute_tool_ok_iff (name : String) (args : Mcp.Arguments) (rng : Mcp.Rng) :
    (∃ tr, Mcp.execute_tool name args rng = Except.ok tr)
      ↔ (name = "fetch_weather_api" ∨ name = "fetch_events_api") := by
  unfold Mcp.execute_tool
  split_ifs with h1 h2
  · simp [h1]
  · simp [h1, h2]
  · simp [h1, h2]

theorem Mcp.handle_mcp_isResult_iff (body : Mcp.ToolCallRequest) (genId : String)
    (rng : Mcp.Rng) :
    (Mcp.handle_mcp body genId rng).isResult = true
      ↔ ∃ tr, Mcp.execute_tool (body.params_name.getD "unknown")
          body.params_arguments rng = Except.ok tr := by
  rcases hex : Mcp.execute_tool (body.params_name.getD "unknown")
      body.params_arguments rng with m | tr <;>
    simp [Mcp.handle_mcp, hex, Mcp.McpResponse.isResult]

/-- Claim C4 (counterexample): the claim says the response id equals the
request body id whenever the body has one; but with body id `""` (present)
the handler falls back to the generated id, because Python
`body.id or str(uuid4().hex[:8])` treats the empty string as falsy. -/
theorem C4_blank_id_counterexample :
    (Mcp.handle_mcp { id := some "", params_name := some "fetch_weather_api" }
        "abcd1234" { temp := 70, cond := 0, humidity := 50, wind := 5, k := 0, rot := 0 }).idOf
      = "abcd1234"
    ∧ ("abcd1234" : String) ≠ "" := by
  exact ⟨rfl, by decide⟩

/-- Claim C4 (amended): every `/mcp` response has `jsonrpc = "2.0"` and an
id equal to the body id when that is present and non-empty (otherwise the
freshly generated 8-character id), and carries exactly one of a result
(iff the named tool is fetch_weather_api or fetch_events_api) or an error
with code -32000. -/
theorem C4_jsonrpc_shape (body : Mcp.ToolCallRequest) (genId : String)
    (rng : Mcp.Rng) (hg : genId.length = 8) :
    (Mcp.handle_mcp body genId rng).jsonrpcOf = "2.0"
    ∧ (∀ i, body.id = some i → i ≠ "" → (Mcp.handle_mcp body genId rng).idOf = i)
    ∧ ((body.id = none ∨ body.id = some "") → (Mcp.handle_mcp body genId rng).idOf.length = 8)
    ∧ ((body.params_name.getD "unknown" = "fetch_weather_api"
          ∨ body.params_name.getD "unknown" = "fetch_events_api")
        ↔ (Mcp.handle_mcp body genId rng).isResult = true)
    ∧ ((Mcp.handle_mcp body genId rng).isResult = false
        → (Mcp.handle_mcp body genId rng).codeOf = some (-32000)) := by
  refine ⟨?_, ?_, ?_, ?_, ?_⟩
  · rcases hex : Mcp.execute_tool (body.params_name.getD "unknown")
        body.params_arguments rng with m | tr <;>
      simp [Mcp.handle_mcp, hex, Mcp.McpResponse.jsonrpcOf]
  · intro i hi hne
    rcases hex : Mcp.execute_tool (body.params_name.getD "unknown")
        body.params_arguments rng with m | tr <;>
      simp [Mcp.handle_mcp, hex, Mcp.McpResponse.idOf, hi, hne]
  · intro h
    rcases h with h | h <;>
      rcases hex : Mcp.execute_tool (body.params_name.getD "unknown")
          body.params_arguments rng with m | tr <;>
        simp [Mcp.handle_mcp, hex, Mcp.McpResponse.idOf, h, hg]
  · rw [Mcp.handle_mcp_isResult_iff body genId rng]
    exact (Mcp.execute_tool_ok_iff (body.params_name.getD "unknown")
      body.params_arguments rng).symm
  · intro h
    rcases hex : Mcp.execute_tool (body.params_name.getD "unknown")
        body.params_arguments rng with m | tr
    · simp [Mcp.handle_mcp, hex, Mcp.McpResponse.codeOf]
    · have htrue : (Mcp.handle_mcp body genId rng).isResult = true :=
        (Mcp.handle_mcp_isResult_iff body genId rng).mpr ⟨tr, hex⟩
      rw [htrue] at h
      cases h

theorem C4_jsonrpc_shape_witness :
    (Mcp.handle_mcp { id := some "req-7", params_name := some "fetch_events_api" }
        "abcd1234" { temp := 70, cond := 0, humidity := 50, wind := 5, k := 0, rot := 0 }).jsonrpcOf = "2.0"
    ∧ (∀ i, ({ id := some "req-7", params_name := some "fetch_events_api" } : Mcp.ToolCallRequest).id = some i → i ≠ ""
        → (Mcp.handle_mcp { id := some "req-7", params_name := some "fetch_events_api" }
            "abcd1234" { temp := 70, cond := 0, humidity := 50, wind := 5, k := 0, rot := 0 }).idOf = i)
    ∧ ((({ id := some "req-7", params_name := some "fetch_events_api" } : Mcp.ToolCallRequest).id = none
          ∨ ({ id := some "req-7", params_name := some "fetch_events_api" } : Mcp.ToolCallRequest).id = some "")
        → (Mcp.handle_mcp { id := some "req-7", params_name := some "fetch_events_api" }
            "abcd1234" { temp := 70, cond := 0, humidity := 50, wind := 5, k := 0, rot := 0 }).idOf.length = 8)
    ∧ ((({ id := some "req-7", params_name := some "fetch_events_api" } : Mcp.ToolCallRequest).params_name.getD "unknown" = "fetch_weather_api"
          ∨ ({ id := some "req-7", params_name := some "fetch_events_api" } : Mcp.ToolCallRequest).params_name.getD "unknown" = "fetch_events_api")
        ↔ (Mcp.handle_mcp { id := some "req-7", params_name := some "fetch_events_api" }
            "abcd1234" { temp := 70, cond := 0, humidity := 50, wind := 5, k := 0, rot := 0 }).isResult = true)
    ∧ ((Mcp.handle_mcp { id := some "req-7", params_name := some "fetch_events_api" }
          "abcd1234" { temp := 70, cond := 0, humidity := 50, wind := 5, k := 0, rot := 0 }).isResult = false
        → (Mcp.handle_mcp { id := some "req-7", params_name := some "fetch_events_api" }
            "abcd1234" { temp := 70, cond := 0, humidity := 50, wind := 5, k := 0, rot := 0 }).codeOf = some (-32000)) :=
  C4_jsonrpc_shape { id := some "req-7", params_name := some "fetch_events_api" }
    "abcd1234" { temp := 70, cond := 0, humidity := 50, wind := 5, k := 0, rot := 0 } rfl

/-- Claim C5: a `/events` request carrying a fault with probability 1.0
yields, for fault type "error", an ErrorResponse with error type
"tool_error"; for "rate_limited", an ErrorResponse with error type
"rate_limited"; for "empty", an EventsResponse with an empty events
list — in all three cases without issuing the MCP tool call — and a
request with no fault field never takes a fault branch. -/
theorem C5_events_fault_injection (dest : String) (date : Option String)
    (dm : Nat) (wcity : Option String) (r : ℚ) (hr : r < 1)
    (choiceIdx rotIdx : Nat) (nowDate : String)
    (mcpEvents : List EventsAgent.JsonEvent) :
    EventsAgent.get_events
        { destination := dest, date := date,
          fault := some { type := "error", delay_ms := dm, probability := 1, wrong_city := wcity } }
        r choiceIdx rotIdx nowDate mcpEvents
      = ⟨.err ⟨⟨"tool_error", "Events API returned an error"⟩, dest, EventsAgent.AGENT_ID⟩,
          false, some "error"⟩
    ∧ EventsAgent.get_events
        { destination := dest, date := date,
          fault := some { type := "rate_limited", delay_ms := dm, probability := 1, wrong_city := wcity } }
        r choiceIdx rotIdx nowDate mcpEvents
      = ⟨.err ⟨⟨"rate_limited", "Events API rate limit exceeded"⟩, dest, EventsAgent.AGENT_ID⟩,
          false, some "rate_limited"⟩
    ∧ EventsAgent.get_events
        { destination := dest, date := date,
          fault := some { type := "empty", delay_ms := dm, probability := 1, wrong_city := wcity } }
        r choiceIdx rotIdx nowDate mcpEvents
      = ⟨.ok ⟨dest, [], EventsAgent.AGENT_ID⟩, false, some "empty"⟩
    ∧ (EventsAgent.get_events { destination := dest, date := date, fault := none }
        r choiceIdx rotIdx nowDate mcpEvents).faultInjected = none
    ∧ (EventsAgent.get_events { destination := dest, date := date, fault := none }
        r choiceIdx rotIdx nowDate mcpEvents).mcpCalled = true := by
  have hd : decide (r < (1 : ℚ)) = true := decide_eq_true hr
  refine ⟨?_, ?_, ?_, ?_, ?_⟩ <;>
    simp [EventsAgent.get_events, EventsAgent.should_inject_fault, hd,
      EventsAgent.mcpPath]

theorem C5_events_fault_injection_witness :
    EventsAgent.get_events
        { destination := "Paris", date := none,
          fault := some { type := "error", delay_ms := 5, probability := 1, wrong_city := none } }
        (1 / 2) 0 0 "2025-06-01" []
      = ⟨.err ⟨⟨"tool_error", "Events API returned an error"⟩, "Paris", EventsAgent.AGENT_ID⟩,
          false, some "error"⟩
    ∧ EventsAgent.get_events
        { destination := "Paris", date := none,
          fault := some { type := "rate_limited", delay_ms := 5, probability := 1, wrong_city := none } }
        (1 / 2) 0 0 "2025-06-01" []
      = ⟨.err ⟨⟨"rate_limited", "Events API rate limit exceeded"⟩, "Paris", EventsAgent.AGENT_ID⟩,
          false, some "rate_limited"⟩
    ∧ EventsAgent.get_events
        { destination := "Paris", date := none,
          fault := some { type := "empty", delay_ms := 5, probability := 1, wrong_city := none } }
        (1 / 2) 0 0 "2025-06-01" []
      = ⟨.ok ⟨"Paris", [], EventsAgent.AGENT_ID⟩, false, some "empty"⟩
    ∧ (EventsAgent.get_events { destination := "Paris", date := none, fault := none }
        (1 / 2) 0 0 "2025-06-01" []).faultInjected = none
    ∧ (EventsAgent.get_events { destination := "Paris", date := none, fault := none }
        (1 / 2) 0 0 "2025-06-01" []).mcpCalled = true :=
  C5_events_fault_injection "Paris" none 5 none (1 / 2) (by norm_num) 0 0 "2025-06-01" []

/-- Claim C6: a `WeatherAgent.invoke` call with a fault of probability
1.0 raises, for fault type "rate_limited", a RateLimitError (error type
"rate_limit_exceeded", status code 429) before any LLM or tool call,
and for fault type "hallucination" returns exactly the string
"The weather is 22°C and sunny with light winds." without executing
any tool. -/
theorem C6_weather_fault_paths (msg conv : String) (dm : Nat)
    (tool : Option String) (rs : Nat → ℚ) (h : rs 0 < 1) :
    WAgent.invoke msg conv
        (some { type := "rate_limited", delay_ms := dm, probability := 1, tool := tool }) rs
      = ⟨Except.error (WAgent.PyExn.agentError
            ⟨"Rate limit exceeded. Retry after 60 seconds.", "rate_limit_exceeded", 429⟩),
          false, []⟩
    ∧ WAgent.invoke msg conv
        (some { type := "hallucination", delay_ms := dm, probability := 1, tool := tool }) rs
      = ⟨Except.ok "The weather is 22°C and sunny with light winds.", false, []⟩ := by
  have hd : decide (rs 0 < (1 : ℚ)) = true := decide_eq_true h
  constructor <;>
    simp [WAgent.invoke, WAgent.should_inject_fault, hd, WAgent.RateLimitError]

theorem C6_weather_fault_paths_witness :
    WAgent.invoke "What is the weather in Paris?" "conv-1"
        (some { type := "rate_limited", delay_ms := 0, probability := 1, tool := none })
        (fun _ => 1 / 2)
      = ⟨Except.error (WAgent.PyExn.agentError
            ⟨"Rate limit exceeded. Retry after 60 seconds.", "rate_limit_exceeded", 429⟩),
          false, []⟩
    ∧ WAgent.invoke "What is the weather in Paris?" "conv-1"
        (some { type := "hallucination", delay_ms := 0, probability := 1, tool := none })
        (fun _ => 1 / 2)
      = ⟨Except.ok "The weather is 22°C and sunny with light winds.", false, []⟩ :=
  C6_weather_fault_paths "What is the weather in Paris?" "conv-1" 0 none
    (fun _ => 1 / 2) (by norm_num)

/-- Claim C7: under the default fault weights the canary's
`select_fault` never raises (the weighted draw always lands on a key),
returns None exactly when the drawn key is "none", and for every other
drawn key returns the FAULT_CONFIGS entry for that key, whose type
field equals the key. -/
theorem C7_select_fault_behaviour (x : ℚ) (h0 : 0 ≤ x) (h1 : x < 1) :
    ∃ k, Canary.choose_weighted Canary.DEFAULT_FAULT_WEIGHTS x = some k
      ∧ Canary.select_fault x = some (Canary.faultConfigFor k)
      ∧ (Canary.faultConfigFor k = none ↔ k = "none")
      ∧ (∀ c, Canary.faultConfigFor k = some c → c.type = k) := by
  obtain ⟨k, hk⟩ := Canary.choose_weighted_default_total x h0 h1
  have hmem := Canary.choose_weighted_mem Canary.DEFAULT_FAULT_WEIGHTS x k hk
  simp [Canary.DEFAULT_FAULT_WEIGHTS] at hmem
  refine ⟨k, hk, ?_, ?_, ?_⟩
  · simp [Canary.select_fault, hk]
  · rcases hmem with rfl | rfl | rfl | rfl | rfl | rfl | rfl | rfl <;> decide
  · rcases hmem with rfl | rfl | rfl | rfl | rfl | rfl | rfl | rfl <;>
      first
        | exact fun c hc => Option.noConfusion hc
        | exact fun c hc => by rw [← Option.some.inj hc]

theorem C7_select_fault_behaviour_witness :
    ∃ k, Canary.choose_weighted Canary.DEFAULT_FAULT_WEIGHTS (3 / 5) = some k
      ∧ Canary.select_fault (3 / 5) = some (Canary.faultConfigFor k)
      ∧ (Canary.faultConfigFor k = none ↔ k = "none")
      ∧ (∀ c, Canary.faultConfigFor k = some c → c.type = k) :=
  C7_select_fault_behaviour (3 / 5) (by norm_num) (by norm_num)

/-- Claim C8 (counterexample): the claim says the recommendation
includes "Weather info temporarily unavailable." exactly when partial
is true and weather lacks a "response" key; but when the weather dict's
"response" value is itself that sentence, the recommendation includes
it (even as a whole space-joined part) with partial = false and the
"response" key present. -/
theorem C8_sentinel_counterexample :
    Orch.build_recommendation "Paris"
        (some [("response", "Weather info temporarily unavailable.")])
        [[("name", "Jazz Night")]] false
      = "Great choice! Paris looks wonderful. Weather info temporarily unavailable. Check out Jazz Night."
    ∧ "Weather info temporarily unavailable."
        ∈ Orch.buildRecommendationParts "Paris"
            (some [("response", "Weather info temporarily unavailable.")])
            [[("name", "Jazz Night")]] false
    ∧ Orch.weatherResponseField
        (some [("response", "Weather info temporarily unavailable.")])
      ≠ none := by
  refine ⟨rfl, ?_, ?_⟩
  · simp [Orch.buildRecommendationParts, Orch.weatherResponseField, List.lookup]
  · simp [Orch.weatherResponseField, List.lookup]

/-- Claim C8 (amended): build_recommendation is the space-join of a
parts list headed by "Great choice! {destination} looks wonderful.";
provided the weather response text is not itself one of the two
unavailability sentences, "Weather info temporarily unavailable." is
one of the parts exactly when partial is true and weather is absent or
lacks a "response" key, "Events info temporarily unavailable." is one
of the parts exactly when partial is true and events is empty, and the
output only depends on (hence names at most) the first two events. -/
theorem C8_recommendation_structure (destination : String) (weather : Option Dict)
    (events : List Dict) (p : Bool)
    (hw1 : Orch.weatherResponseField weather ≠ some "Weather info temporarily unavailable.")
    (hw2 : Orch.weatherResponseField weather ≠ some "Events info temporarily unavailable.") :
    (∃ rest, Orch.build_recommendation destination weather events p
        = ("Great choice! " ++ (destination ++ " looks wonderful.")) ++ rest)
    ∧ ("Weather info temporarily unavailable."
          ∈ Orch.buildRecommendationParts destination weather events p
        ↔ (p = true ∧ Orch.weatherResponseField weather = none))
    ∧ ("Events info temporarily unavailable."
          ∈ Orch.buildRecommendationParts destination weather events p
        ↔ (p = true ∧ events = []))
    ∧ Orch.build_recommendation destination weather events p
        = Orch.build_recommendation destination weather (events.take 2) p := by
  refine ⟨⟨_, rfl⟩, ?_, ?_, ?_⟩
  · rcases hwf : Orch.weatherResponseField weather with _ | wr
    · cases p <;> cases events <;>
        simp [Orch.buildRecommendationParts, hwf, Orch.header_ne_wsent,
          Orch.checkout_ne_wsent]
    · have hww : ¬ ("Weather info temporarily unavailable." = wr) := by
        intro hh
        rw [hwf] at hw1
        exact hw1 (by rw [hh])
      cases p <;> cases events <;>
        simp [Orch.buildRecommendationParts, hwf, Orch.header_ne_wsent,
          Orch.checkout_ne_wsent, hww]
  · rcases hwf : Orch.weatherResponseField weather with _ | wr
    · cases p <;> cases events <;>
        simp [Orch.buildRecommendationParts, hwf, Orch.header_ne_esent,
          Orch.checkout_ne_esent]
    · have hwe : ¬ ("Events info temporarily unavailable." = wr) := by
        intro hh
        rw [hwf] at hw2
        exact hw2 (by rw [hh])
      cases p <;> cases events <;>
        simp [Orch.buildRecommendationParts, hwf, Orch.header_ne_esent,
          Orch.checkout_ne_esent, hwe]
  · cases events with
    | nil => rfl
    | cons a l =>
        cases l with
        | nil => rfl
        | cons b m => rfl

theorem C8_recommendation_structure_witness :
    (∃ rest, Orch.build_recommendation "Rome" none [] true
        = ("Great choice! " ++ ("Rome" ++ " looks wonderful.")) ++ rest)
    ∧ ("Weather info temporarily unavailable."
          ∈ Orch.buildRecommendationParts "Rome" none [] true
        ↔ (true = true ∧ Orch.weatherResponseField none = none))
    ∧ ("Events info temporarily unavailable."
          ∈ Orch.buildRecommendationParts "Rome" none [] true
        ↔ (true = true ∧ ([] : List Dict) = []))
    ∧ Orch.build_recommendation "Rome" none [] true
        = Orch.build_recommendation "Rome" none (([] : List Dict).take 2) true :=
  C8_recommendation_structure "Rome" none [] true (by decide) (by decide)
